import Mathlib

/-!
Verification of the chunk-data / NBT decoding core of the repository
(`minecraft/networking/packets/clientbound/play/chunk_data_packet.py` and
`minecraft/networking/types/custom_nbt.py`) against its specification.

Byte streams are modelled as `List Nat` (each element a byte value `< 256`);
Python's arbitrary-precision integers are modelled as `Nat`/`Int` with
explicit two's-complement conversion where `struct` unpacks signed formats.
Python exceptions are modelled by the `PyErr` error type of an `Except`
monad.
-/

/-- Exception outcomes that the embedded Python code can raise. -/
inductive PyErr
  /-- `struct.error`: `struct.unpack` got a byte string of the wrong size. -/
  | structError
  /-- `ValueError` (raised explicitly by `TAG_End.read`). -/
  | valueError
  /-- `TypeError` (e.g. calling a method with a missing argument,
      calling an `int` attribute, or `list(int)`). -/
  | typeError
  /-- `AttributeError` (attribute access on `None` or on an object that
      never had the attribute assigned). -/
  | attributeError
  /-- `KeyError` (`dict[k]` for a missing key). -/
  | keyError
  /-- `NotImplementedError` (raised by the `TAG` base-class methods). -/
  | notImplementedError
  /-- `IndexError` (list index out of range). -/
  | indexError
  /-- `TruncatedStreamError` of the spec's Bit Reader (§4.1), raised by the
      typed readers of the `minecraft.networking.types` module. -/
  | truncated
  /-- Fuel exhaustion of the embedding's recursion counter; never reached on
      the inputs considered in the theorems below. -/
  | recursionLimit
deriving DecidableEq, Repr

/-- Python `file_object.read(n)`: returns *at most* `n` bytes (fewer when the
stream is exhausted, with no error), and for a negative `n` returns the whole
remaining stream (`io.BytesIO` semantics). -/
def pyRead (n : Int) (s : List Nat) : List Nat × List Nat :=
  if n < 0 then (s, []) else (s.take n.toNat, s.drop n.toNat)

/-- Big-endian unsigned integer value of a byte string. -/
def beNat (bs : List Nat) : Nat :=
  bs.foldl (fun a b => a * 256 + b) 0

/-- Two's-complement (signed) reading of a `bits`-wide unsigned value, as
`struct.unpack` does for the signed formats `>b`, `>h`, `>i`, `>l`. -/
def toSigned (bits : Nat) (v : Nat) : Int :=
  if v < 2 ^ (bits - 1) then (v : Int) else (v : Int) - 2 ^ bits

/-- `struct.unpack(">…", file_object.read(width))[0]` for an unsigned
big-endian format of `width` bytes: `struct.error` unless exactly `width`
bytes could be read. -/
def readExactBE (width : Nat) (s : List Nat) : Except PyErr (Nat × List Nat) :=
  if width ≤ s.length then .ok (beNat (s.take width), s.drop width)
  else .error .structError

/-- `struct.unpack(">…", file_object.read(width))[0]` for a signed big-endian
format of `width` bytes. -/
def readSigned (width : Nat) (s : List Nat) : Except PyErr (Int × List Nat) :=
  (readExactBE width s).map fun p => (toSigned (8 * width) p.1, p.2)

/- ### NBT tag codec (custom_nbt.py) -/

/-- Python values produced by the tag readers of `custom_nbt.py`. IEEE-754
floats are abstracted to their raw big-endian bit patterns (no claim depends
on their numeric interpretation), and a decoded UTF-8 string is kept as its
encoded byte sequence. -/
inductive PyVal
  /-- Python `None` (returned by `TAG_End.read` and, having no `return`
      statement, by `TAG_Compound.read`). -/
  | none
  /-- A Python `int` (the signed scalar reads). -/
  | int (v : Int)
  /-- A float of `width` bits, abstracted to its raw bit pattern. -/
  | floatBits (width : Nat) (bits : Nat)
  /-- A `bytearray` (from `TAG_Byte_Array.read`). -/
  | bytes (bs : List Nat)
  /-- A `str` (from `TAG_String.read`), kept as its UTF-8 bytes. -/
  | str (bs : List Nat)
  /-- A Python `list` (from `TAG_List.read` / `TAG_Long_Array.read`). -/
  | list (xs : List PyVal)

/-- `TAG_End.read` (custom_nbt.py lines 38-43): unpack one signed byte;
raise `ValueError` unless it is 0; implicitly return `None`. -/
def tagEndRead (s : List Nat) : Except PyErr (PyVal × List Nat) := do
  let (v, s) ← readSigned 1 s
  if v ≠ 0 then .error .valueError else .ok (.none, s)

/-- `TAG_Long.read` (custom_nbt.py lines 101-103):
`struct.unpack(">l", file_object.read(4))[0]`. The format `">l"` is a
**4-byte** signed big-endian integer in `struct`'s standard-size mode, so
this reads 4 bytes, not the 8 announced by the class docstring. -/
def tagLongRead (s : List Nat) : Except PyErr (Int × List Nat) :=
  readSigned 4 s

/-- `TAG_String.read` (custom_nbt.py lines 164-167): a signed 16-bit length,
then `file_object.read(length)` (which returns fewer bytes than requested
without error when the stream is short). -/
def tagStringReadCore (s : List Nat) : Except PyErr (List Nat × List Nat) := do
  let (len, s) ← readSigned 2 s
  let (bs, s) := pyRead len s
  .ok (bs, s)

/-- `TAG_Byte_Array.read` (custom_nbt.py lines 146-149): a signed 32-bit
length, then `bytearray(file_object.read(length))`. -/
def tagByteArrayRead (s : List Nat) : Except PyErr (PyVal × List Nat) := do
  let (len, s) ← readSigned 4 s
  let (bs, s) := pyRead len s
  .ok (.bytes bs, s)

/-- `TAG_Int_Array.read` (custom_nbt.py lines 234-237):
`list(struct.unpack(">i", file_object.read(4 * length))[0])`. `">i"` unpacks
exactly 4 bytes, so unless `file_object.read(4 * length)` yields exactly 4
bytes this raises `struct.error`; when it does yield 4 bytes, element `[0]`
is an `int` and `list(int)` raises `TypeError`. Either way the read fails. -/
def tagIntArrayRead (s : List Nat) : Except PyErr (PyVal × List Nat) := do
  let (len, s) ← readSigned 4 s
  let (bs, _) := pyRead (4 * len) s
  if bs.length = 4 then .error .typeError else .error .structError

/-- The element loop of `TAG_Long_Array.read`: `size` iterations of
`TAG_Long.read` (which reads 4 bytes each, see `tagLongRead`). -/
def readLongElems : Nat → List Nat → Except PyErr (List Int × List Nat)
  | 0, s => .ok ([], s)
  | n + 1, s => do
    let (v, s) ← tagLongRead s
    let (vs, s) ← readLongElems n s
    .ok (v :: vs, s)

/-- `TAG_Long_Array.read` (custom_nbt.py lines 248-255): a signed 32-bit
size, then `size` `TAG_Long.read`s collected into a list (a negative size
makes `range(size)` empty). -/
def tagLongArrayRead (s : List Nat) : Except PyErr (PyVal × List Nat) := do
  let (size, s) ← readSigned 4 s
  let (vs, s) ← readLongElems size.toNat s
  .ok (.list (vs.map PyVal.int), s)

/-- A pending read of the recursive tag reader: one tag payload by id
(`tag_lookup[id].read`), the element loop of `TAG_List.read`, or the `while`
loop of `TAG_Compound.read`. -/
inductive ReadReq
  | byId (tagId : Int)
  | listElems (tagId : Int) (count : Nat)
  | compound

/-- The recursive tag readers of `custom_nbt.py`, embedded as one function
structurally recursive on a fuel counter (Python's recursion is bounded by
the stream, so fuel larger than the input never runs out; `recursionLimit`
is unreachable in the theorems below). The result list holds the values
produced: exactly one value for `.byId` and `.compound`, and the element
values for `.listElems` (concatenated one per element).

- `.byId tagId` is `tag_lookup[tagId].read(file_object)` for `0 ≤ tagId ≤ 12`
  (custom_nbt.py lines 259-271), and `KeyError` otherwise (bracket lookup in
  `TAG_List.read` line 185);
- ids 1/2/3 read signed 1/2/4-byte big-endian ints, id 4 is `tagLongRead`
  (4 bytes, see its doc), ids 5/6 read 4/8 bytes (`">f"`/`">d"`);
- id 9 is `TAG_List.read` (lines 183-187): a signed element-type byte whose
  `tag_lookup[...]` lookup raises `KeyError` outside 0-12, a signed 32-bit
  count (negative makes `range(length)` empty), then the elements;
- id 10 is `TAG_Compound.read` (lines 209-225): loop reading a signed
  tag-id byte; on 0 `break` out and implicitly return `None`; otherwise read
  a name via `TAG_String.read`, then `tag_lookup.get(tag_id)` — `None` for
  ids outside 0-12, so the following `.read` raises `AttributeError` — and
  read one value, which is **discarded**: the `compound` dict is never
  populated or returned. -/
def nbtRead : Nat → ReadReq → List Nat → Except PyErr (List PyVal × List Nat)
  | 0, _, _ => .error .recursionLimit
  | fuel + 1, .byId tagId, s =>
    if tagId = 0 then (tagEndRead s).map fun p => ([p.1], p.2)
    else if tagId = 1 then (readSigned 1 s).map fun p => ([PyVal.int p.1], p.2)
    else if tagId = 2 then (readSigned 2 s).map fun p => ([PyVal.int p.1], p.2)
    else if tagId = 3 then (readSigned 4 s).map fun p => ([PyVal.int p.1], p.2)
    else if tagId = 4 then (tagLongRead s).map fun p => ([PyVal.int p.1], p.2)
    else if tagId = 5 then
      (readExactBE 4 s).map fun p => ([PyVal.floatBits 32 p.1], p.2)
    else if tagId = 6 then
      (readExactBE 8 s).map fun p => ([PyVal.floatBits 64 p.1], p.2)
    else if tagId = 7 then (tagByteArrayRead s).map fun p => ([p.1], p.2)
    else if tagId = 8 then (tagStringReadCore s).map fun p => ([PyVal.str p.1], p.2)
    else if tagId = 9 then do
      let (t, s) ← readSigned 1 s
      if t < 0 ∨ 12 < t then .error .keyError
      else do
        let (len, s) ← readSigned 4 s
        let (vs, s) ← nbtRead fuel (.listElems t len.toNat) s
        .ok ([.list vs], s)
    else if tagId = 10 then nbtRead fuel .compound s
    else if tagId = 11 then (tagIntArrayRead s).map fun p => ([p.1], p.2)
    else if tagId = 12 then (tagLongArrayRead s).map fun p => ([p.1], p.2)
    else .error .keyError
  | fuel + 1, .listElems tagId count, s =>
    match count with
    | 0 => .ok ([], s)
    | m + 1 => do
      let (v, s) ← nbtRead fuel (.byId tagId) s
      let (vs, s) ← nbtRead fuel (.listElems tagId m) s
      .ok (v ++ vs, s)
  | fuel + 1, .compound, s => do
    let (tagId, s) ← readSigned 1 s
    if tagId = 0 then .ok ([PyVal.none], s)
    else do
      let (_name, s) ← tagStringReadCore s
      if tagId < 0 ∨ 12 < tagId then .error .attributeError
      else do
        let (_v, s) ← nbtRead fuel (.byId tagId) s
        nbtRead fuel .compound s

/-- `TAG_List.send` (custom_nbt.py lines 189-200): its first statement is
`TAG_Byte.send(tag_type)`, but `TAG_Byte.send` is declared as
`send(value, socket)`; the call is missing its `socket` argument, so Python
raises `TypeError` before anything is written. -/
def tagListSend (_values : List PyVal) (_tag_type : Int) : Except PyErr (List Nat) :=
  .error .typeError

/-- `TAG_Compound` defines no `send`; the inherited `TAG.send`
(custom_nbt.py lines 29-31) unconditionally raises `NotImplementedError`. -/
def tagCompoundSend (_value : PyVal) : Except PyErr (List Nat) :=
  .error .notImplementedError

/- ### Typed stream readers of the `minecraft.networking.types` module.
That module is not under src/ (only this repository's callers are), so these
are modelled from the spec's Bit Reader contract (§4.1). -/

/-- Modelled from the spec: `readFixed(width)` of §4.1 for the fixed-width
unsigned big-endian readers of the types module (`UnsignedByte.read`,
`UnsignedLong.read`, …); fails with `TruncatedStreamError` when fewer bytes
remain than requested. -/
def readFixedBE (width : Nat) (s : List Nat) : Except PyErr (Nat × List Nat) :=
  if width ≤ s.length then .ok (beNat (s.take width), s.drop width)
  else .error .truncated

/-- Modelled from the spec: `UnsignedByte.read` — `readFixed(1)`. -/
def unsignedByteRead (s : List Nat) : Except PyErr (Nat × List Nat) :=
  readFixedBE 1 s

/-- Modelled from the spec: `UnsignedLong.read` — `readFixed(8)`. -/
def unsignedLongRead (s : List Nat) : Except PyErr (Nat × List Nat) :=
  readFixedBE 8 s

/-- Modelled from the spec: `Long.read` — a fixed 8-byte big-endian read
whose sign the caller interprets as two's-complement (§4.1). -/
def longRead (s : List Nat) : Except PyErr (Int × List Nat) :=
  (readFixedBE 8 s).map fun p => (toSigned 64 p.1, p.2)

/-- Modelled from the spec: `readVarint()` of §4.1 — little-endian groups of
7 bits, high bit of each byte as continuation flag, unsigned;
`TruncatedStreamError` when the stream ends mid-value. -/
def readVarintAux : List Nat → Nat → Nat → Except PyErr (Nat × List Nat)
  | [], _, _ => .error .truncated
  | b :: rest, shift, acc =>
    if b < 128 then .ok (acc + b <<< shift, rest)
    else readVarintAux rest (shift + 7) (acc + (b - 128) <<< shift)

/-- Modelled from the spec: `VarInt.read` — see `readVarintAux`. -/
def readVarint (s : List Nat) : Except PyErr (Nat × List Nat) :=
  readVarintAux s 0 0

/- ### Chunk column decoding (chunk_data_packet.py lines 126-219) -/

/-- The entry loop of `IndirectPalette.read`: `length` varint reads. -/
def readVarints : Nat → List Nat → Except PyErr (List Nat × List Nat)
  | 0, s => .ok ([], s)
  | n + 1, s => do
    let (v, s) ← readVarint s
    let (vs, s) ← readVarints n s
    .ok (v :: vs, s)

/-- `IndirectPalette.read` (chunk_data_packet.py lines 203-208): a varint
`length`, then the dict mapping each `block_state_id in range(length)` to a
varint entry — i.e. the ordered entry list. -/
def indirectPaletteRead (s : List Nat) : Except PyErr (List Nat × List Nat) := do
  let (length, s) ← readVarint s
  readVarints length s

/-- The long-array loop of `read_chunk_section_data`: `num_of_longs` reads
of `UnsignedLong`. -/
def readUnsignedLongs : Nat → List Nat → Except PyErr (List Nat × List Nat)
  | 0, s => .ok ([], s)
  | n + 1, s => do
    let (v, s) ← unsignedLongRead s
    let (vs, s) ← readUnsignedLongs n s
    .ok (v :: vs, s)

/- ### Chunk-section bit unpacking
(`ChunkDataPacket.read_chunk_section_data`, chunk_data_packet.py lines 99-114) -/

/-- The value computed for one block by the body of the `y`/`z`/`x` loop of
`ChunkDataPacket.read_chunk_section_data` (chunk_data_packet.py lines 99-114),
as a function of the decoded long array, the width `self.bits_per_block`, and
`block_number`. Python's `//` and `%` agree with `Nat` division here because
every operand is non-negative for `bits_per_block ≥ 1`; a list index out of
range (Python `IndexError`) is `none`. -/
def read_block_data (long_array : List Nat) (bits_per_block block_number : Nat) :
    Option Nat :=
  -- value_mask = (1 << self.bits_per_block) - 1
  let value_mask := (1 <<< bits_per_block) - 1
  let start_long := (block_number * bits_per_block) / 64
  let start_offset := (block_number * bits_per_block) % 64
  let end_long := ((block_number + 1) * bits_per_block - 1) / 64
  if start_long = end_long then
    (long_array[start_long]?).map fun w => (w >>> start_offset) &&& value_mask
  else
    -- end_offset = 64 - start_offset
    match long_array[start_long]?, long_array[end_long]? with
    | some a, some b =>
        some ((a >>> start_offset ||| b <<< (64 - start_offset)) &&& value_mask)
    | _, _ => none

/-- Modelled from the spec: the extraction formula of §4.3, stated exactly in
the spec's terms (`bitOffset`, `wordIndex`, `bitInWord`, `endWordIndex`,
`mask(width) = (1 << width) - 1`), for comparison with `read_block_data`. -/
def specBlockValue (words : List Nat) (width i : Nat) : Nat :=
  let bitOffset := i * width
  let wordIndex := bitOffset / 64
  let bitInWord := bitOffset % 64
  let endWordIndex := (bitOffset + width - 1) / 64
  if wordIndex = endWordIndex then
    (words.getD wordIndex 0 >>> bitInWord) &&& ((1 <<< width) - 1)
  else
    ((words.getD wordIndex 0 >>> bitInWord) |||
      (words.getD endWordIndex 0 <<< (64 - bitInWord))) &&& ((1 <<< width) - 1)

/-- The sequence of per-block values computed (printed, and then discarded) by
the triple `y`/`z`/`x` loop of `read_chunk_section_data`, in loop order:
`block_number = ((y*16)+z)*16+x`. -/
def section_raw_values (bits_per_block : Nat) (long_array : List Nat) :
    List (Option Nat) :=
  (List.range 16).flatMap fun y =>
    (List.range 16).flatMap fun z =>
      (List.range 16).map fun x =>
        read_block_data long_array bits_per_block (((y * 16) + z) * 16 + x)

/- ### Palettes (chunk_data_packet.py lines 185-219) -/

/-- The two palette classes; `indirect` carries the `bits_per_block` attribute
set by `IndirectPalette.__init__`. -/
inductive Palette
  | indirect (bits_per_block : Nat)
  | direct
deriving DecidableEq, Repr

/-- `PaletteFactory.get_palette` (chunk_data_packet.py lines 186-192). -/
def get_palette (bits_per_block : Nat) : Palette :=
  if bits_per_block ≤ 4 then .indirect 4
  else if bits_per_block ≤ 8 then .indirect bits_per_block
  else .direct

/-- `DirectPalette.bits_per_block` (chunk_data_packet.py lines 215-216)
returns `math.ceil(math.log2(14))`; the ceiling of the base-2 logarithm of a
positive integer is `Nat.clog 2`. -/
def DirectPalette_bits_per_block : Nat := Nat.clog 2 14

/-- `ChunkDataPacket.read_chunk_section_data` (chunk_data_packet.py lines
92-118): a varint word count, that many `UnsignedLong` reads, then the
`y`/`z`/`x` loop computes one value per block — printing it and storing
nothing (the method returns `None`). The observable result here is the list
of printed values together with the remaining stream; an out-of-range word
index in the loop is a Python `IndexError`. -/
def read_chunk_section_data (bits_per_block : Nat) (s : List Nat) :
    Except PyErr (List Nat × List Nat) := do
  let (num_of_longs, s) ← readVarint s
  let (long_array, s) ← readUnsignedLongs num_of_longs s
  match (section_raw_values bits_per_block long_array).mapM id with
  | some vals => .ok (vals, s)
  | none => .error .indexError

/-- The section loop of `read_chunk_column` (chunk_data_packet.py lines
140-142): `for chunk_y in range(16): if self.mask & (1 << chunk_y):
self.read_chunk_section_data(file_object)`, with `count` slots left starting
at `chunk_y`. -/
def readSections (bits_per_block mask : Nat) :
    Nat → Nat → List Nat → Except PyErr (List Nat)
  | _, 0, s => .ok s
  | chunk_y, count + 1, s => do
    let s ←
      if mask &&& (1 <<< chunk_y) ≠ 0 then do
        let (_vals, s) ← read_chunk_section_data bits_per_block s
        pure s
      else pure s
    readSections bits_per_block mask (chunk_y + 1) count s

/-- `ChunkDataPacket.read_chunk_column` (chunk_data_packet.py lines
126-183), which always fails. It reads a column-level `bits_per_block` byte,
builds the palette and runs its `read`; then line 138 evaluates
`self.palette.bits_per_block()` — on an `IndirectPalette` that attribute is
an `int` set by `__init__`, so calling it raises `TypeError`, while on a
`DirectPalette` it is a method. On the Direct path the section loop runs,
after which line 146 evaluates `self.primary_bit_mask`, an attribute that is
never assigned anywhere in the class (the mask is stored in `self.mask`), so
`AttributeError` is raised unconditionally before any section object could
be produced. -/
def read_chunk_column (mask : Nat) (s : List Nat) :
    Except PyErr (Unit × List Nat) := do
  let (bits_per_block, s) ← unsignedByteRead s
  let palette := get_palette bits_per_block
  let (_palette_state, s) ←
    (match palette with
      | .indirect _ => do
          let (entries, s) ← indirectPaletteRead s
          pure ((Sum.inl entries : Sum (List Nat) Int), s)
      | .direct => do
          let (v, s) ← longRead s
          pure (Sum.inr v, s))
  match palette with
  | .indirect _ => .error .typeError
  | .direct => do
      let s ← readSections bits_per_block mask 0 16 s
      let _ := s
      .error .attributeError

/-- Helper: bind on an `Except.ok` value reduces to the continuation. -/
theorem except_bind_ok {ε α β : Type} (a : α) (f : α → Except ε β) :
    (Except.ok a >>= f) = f a := rfl

/-- Helper: `ceil(log2 14) = 4`. -/
theorem directPalette_bits_eq_four : DirectPalette_bits_per_block = 4 := by
  have h1 : Nat.clog 2 14 ≤ 4 := (Nat.le_pow_iff_clog_le one_lt_two).1 (by norm_num)
  have h3 : ¬ Nat.clog 2 14 ≤ 3 := fun h =>
    absurd ((Nat.le_pow_iff_clog_le one_lt_two).2 h) (by norm_num)
  unfold DirectPalette_bits_per_block
  omega

/-- Helper: on an all-zero long array at width 4, every block value computed by
the loop body is (defined and) zero. -/
theorem read_block_data_zero (n : Nat) (hn : n < 4096) :
    read_block_data (List.replicate 256 0) 4 n = some 0 := by
  have h1 : (n * 4) / 64 = ((n + 1) * 4 - 1) / 64 := by omega
  have h2 : (n * 4) / 64 < 256 := by omega
  simp only [read_block_data]
  rw [if_pos h1, List.getElem?_replicate, if_pos h2]
  simp [Nat.zero_shiftRight, Nat.zero_and]

/-- Claim C1: with `bitOffset = i*w`, `wordIndex = bitOffset/64`,
`bitInWord = bitOffset%64`, `endWordIndex = (bitOffset+w-1)/64`, when
`endWordIndex < len(words)` the raw value extracted for block `i` by the
section decoder equals the spec formula of §4.3 (`(words[wordIndex] >>
bitInWord) & mask(w)` in the single-word case, `((words[wordIndex] >>
bitInWord) | (words[endWordIndex] << (64 - bitInWord))) & mask(w)` in the
straddling case). -/
theorem claim_C1_unpack_matches_spec (words : List Nat) (w i : Nat) (hw : 1 ≤ w)
    (hend : (i * w + w - 1) / 64 < words.length) :
    read_block_data words w i = some (specBlockValue words w i) := by
  have hm : (i + 1) * w - 1 = i * w + w - 1 := by
    have h : (i + 1) * w = i * w + w := by ring
    omega
  have hle : i * w ≤ i * w + w - 1 := by
    have h : 0 < w := hw
    omega
  have hstart : (i * w) / 64 < words.length :=
    lt_of_le_of_lt (Nat.div_le_div_right hle) hend
  simp only [read_block_data, specBlockValue, hm]
  by_cases h : (i * w) / 64 = (i * w + w - 1) / 64
  · rw [if_pos h, if_pos h, List.getElem?_eq_getElem hstart]
    simp [List.getD_eq_getElem?_getD, List.getElem?_eq_getElem hstart]
  · rw [if_neg h, if_neg h, List.getElem?_eq_getElem hstart,
      List.getElem?_eq_getElem hend]
    simp [List.getD_eq_getElem?_getD, List.getElem?_eq_getElem hstart,
      List.getElem?_eq_getElem hend]

theorem claim_C1_witness :
    (1 ≤ 5 ∧ (12 * 5 + 5 - 1) / 64 < ([2 ^ 63, 3] : List Nat).length) ∧
      read_block_data [2 ^ 63, 3] 5 12 = some (specBlockValue [2 ^ 63, 3] 5 12) :=
  ⟨by decide, claim_C1_unpack_matches_spec [2 ^ 63, 3] 5 12 (by decide) (by decide)⟩

set_option maxRecDepth 4000 in
/-- Claim C2 (code_bug evidence): on the scenario input — width 4 and a
256-long all-zero block array — the section decoder computes 4096 raw values,
all zero; it prints and discards them without resolving them through the
palette, so no `blockStates` of resolved global ids (all `5` for the table
`[5, 9]`) is ever produced. -/
theorem claim_C2_raw_values_unresolved :
    section_raw_values 4 (List.replicate 256 0) = List.replicate 4096 (some 0) := by
  rw [List.eq_replicate_iff]
  constructor
  · simp [section_raw_values, List.length_flatMap, Function.comp_def]
  · intro b hb
    simp only [section_raw_values, List.mem_flatMap, List.mem_map,
      List.mem_range] at hb
    obtain ⟨y, hy, z, hz, x, hx, rfl⟩ := hb
    exact read_block_data_zero _ (by omega)

/-- Claim C4 (code_bug evidence): `DirectPalette.bits_per_block` returns
`math.ceil(math.log2(14))`, a constant 4; it ignores the global id space
entirely, so for a global id space of size 10000 it does not return the 14
the claim requires. -/
theorem claim_C4_direct_width_constant_four :
    DirectPalette_bits_per_block = 4 ∧ DirectPalette_bits_per_block ≠ 14 := by
  rw [directPalette_bits_eq_four]
  exact ⟨rfl, by decide⟩

/-- Claim C5: palette construction selects an Indirect palette with effective
width 4 when `b ≤ 4`, an Indirect palette with width `b` when `4 < b ≤ 8`,
and a Direct palette when `b > 8`; being a pure function of `b`, the chosen
variant is fully determined by `b`. -/
theorem claim_C5_palette_selection (b : Nat) :
    (b ≤ 4 → get_palette b = .indirect 4) ∧
    (4 < b → b ≤ 8 → get_palette b = .indirect b) ∧
    (8 < b → get_palette b = .direct) := by
  unfold get_palette
  refine ⟨fun h => ?_, fun h1 h2 => ?_, fun h => ?_⟩
  · rw [if_pos h]
  · rw [if_neg (by omega), if_pos h2]
  · rw [if_neg (by omega), if_neg (by omega)]

theorem claim_C5_witness :
    get_palette 3 = .indirect 4 ∧ get_palette 6 = .indirect 6 ∧
      get_palette 9 = .direct :=
  ⟨(claim_C5_palette_selection 3).1 (by decide),
    (claim_C5_palette_selection 6).2.1 (by decide) (by decide),
    (claim_C5_palette_selection 9).2.2 (by decide)⟩

/-- Claim C3 (code_bug evidence): the tag codec cannot encode every variant,
so encoding is not the byte-for-byte inverse of decoding for all 13 kinds:
`TAG_List.send` raises `TypeError` on any input (its first statement calls
`TAG_Byte.send` without the `socket` argument) and `TAG_Compound` has no
`send` at all (the inherited base method raises `NotImplementedError`). -/
theorem claim_C3_send_crashes :
    tagListSend [PyVal.int 1] 1 = .error .typeError ∧
      tagCompoundSend PyVal.none = .error .notImplementedError :=
  ⟨rfl, rfl⟩

/-- Claim C6 (code_bug evidence): decoding a Compound whose child tag-id is
13 (outside 0-12) raises `AttributeError` — `tag_lookup.get(13)` is `None`
and `None.read` is then called — not any `UnknownTagIdError`, which does not
exist in the code (the source's own TODO comment admits ids > 12 are
unhandled). The input is tag-id byte 13 followed by an empty name. -/
theorem claim_C6_unknown_id_is_attribute_error :
    nbtRead 10 .compound [13, 0, 0] = .error .attributeError :=
  rfl

/-- Claim C7 (code_bug evidence): decoding a well-formed Compound — here the
encoding of `{"a": Byte 1}`, i.e. tag-id 1, name length 1, name `"a"`, payload
1, End — consumes the whole stream but returns Python `None`: the child's
name and value are read and discarded, and no mapping is ever populated or
returned. -/
theorem claim_C7_compound_returns_none :
    nbtRead 10 .compound [1, 0, 1, 97, 1, 0] = .ok ([PyVal.none], []) :=
  rfl

/-- Claim C8 (code_bug evidence): on a stream of 8 bytes encoding the 64-bit
big-endian value 1, `TAG_Long.read` consumes only 4 bytes and returns the
32-bit value 0 of the first four bytes, leaving `[0, 0, 0, 1]` unread — not
the 8-byte/64-bit read its own docstring and the claim state. -/
theorem claim_C8_long_read_consumes_four_bytes :
    tagLongRead [0, 0, 0, 0, 0, 0, 0, 1] = .ok (0, [0, 0, 0, 1]) :=
  rfl

/-- Claim C9 (code_bug evidence): a column with presence mask 0 is not
decoded into 16 empty sections with no bytes consumed; `read_chunk_column`
first consumes a bits-per-block byte plus palette bytes and then always
crashes. With stream `[4, 0]` (bits_per_block 4, empty indirect palette) it
raises `TypeError` at `self.palette.bits_per_block()`; with stream
`[9, 0, …, 0]` (bits_per_block 9, direct palette long) it passes the (empty)
section loop and raises `AttributeError` at the never-assigned
`self.primary_bit_mask`. -/
theorem claim_C9_mask_zero_column_crashes :
    read_chunk_column 0 [4, 0] = .error .typeError ∧
      read_chunk_column 0 [9, 0, 0, 0, 0, 0, 0, 0, 0] = .error .attributeError :=
  ⟨rfl, rfl⟩

/-- Claim C10: reading a standalone End tag from a stream with at least one
byte available consumes exactly that one byte; it succeeds returning `None`
if and only if the byte is 0, and raises `ValueError` otherwise. -/
theorem claim_C10_end_read (b : Nat) (rest : List Nat) (hb : b < 256) :
    tagEndRead (b :: rest) =
      if b = 0 then .ok (PyVal.none, rest) else .error .valueError := by
  have hne : b ≠ 0 → toSigned 8 b ≠ 0 := fun h0 => by
    unfold toSigned
    split
    · exact_mod_cast h0
    · have hb2 : (b : Int) < 256 := by exact_mod_cast hb
      norm_num
      omega
  have hread : readSigned 1 (b :: rest) = .ok (toSigned 8 b, rest) := by
    unfold readSigned readExactBE
    rw [if_pos (by simp)]
    simp [beNat, Except.map]
  unfold tagEndRead
  rw [hread, except_bind_ok]
  by_cases h0 : b = 0
  · subst h0
    norm_num [toSigned]
  · rw [if_neg h0]
    show (if toSigned 8 b ≠ 0 then (Except.error PyErr.valueError : Except PyErr (PyVal × List Nat))
        else Except.ok (PyVal.none, rest)) = Except.error PyErr.valueError
    rw [if_pos (hne h0)]

theorem claim_C10_witness :
    (0 : Nat) < 256 ∧
      tagEndRead (0 :: [7]) =
        if (0 : Nat) = 0 then .ok (PyVal.none, [7]) else .error .valueError :=
  ⟨by decide, claim_C10_end_read 0 [7] (by decide)⟩
